import Mathlib

/-!
Verification of the Next.js API proxy route
(frontend/app/api/proxy/[...path]/route.ts) of the todo-ai-chatbot
repository.

Strings are embedded as `List Char` (a string literal `s` enters the model
as `s.data`), so that structural induction over path contents is direct.
The handler is a pure function of its inputs: the environment variables,
the inbound request data, the session token, and an oracle describing the
outcome of the single outbound `fetch` call.  JSON parsing of the backend
error body (`JSON.parse` plus field access) is modelled abstractly by the
`BodyVal` type: a backend body is either `raw` text on which parsing
throws, or a parsed object carrying the optional string fields `detail`
and `message` that the handler reads, together with its raw text.
-/

namespace Proxy

/-- JavaScript string truthiness of an optional environment value:
`undefined` and the empty string are falsy. -/
def jsTruthy : Option (List Char) → Bool
  | none => false
  | some s => !s.isEmpty

/-- The process environment variables the route reads. -/
structure Env where
  apiBaseUrlVar : Option (List Char)
  publicApiBaseUrlVar : Option (List Char)
  nodeEnv : Option (List Char)
deriving DecidableEq

/-- `isDevelopment()`: `process.env.NODE_ENV !== 'production'`. -/
def isDevelopment (e : Env) : Bool :=
  !(e.nodeEnv = some "production".data : Bool)

/-- `baseUrl()`: first truthy of `API_BASE_URL` and
`NEXT_PUBLIC_API_BASE_URL`, else `null`. -/
def baseUrl (e : Env) : Option (List Char) :=
  if jsTruthy e.apiBaseUrlVar then e.apiBaseUrlVar
  else if jsTruthy e.publicApiBaseUrlVar then e.publicApiBaseUrlVar
  else none

/-- Matcher for the anchored regexes `^\/\d+\/chat$` and
`^\/\d+\/new_conversation$`: a leading slash, a non-empty digit run, then
exactly the given suffix (the suffix starts with a non-digit, so the
maximal digit run is the regex group).  Returns the digit group. -/
def matchNumSuffix (suf : List Char) : List Char → Option (List Char)
  | '/' :: rest =>
    if rest.takeWhile Char.isDigit ≠ [] ∧ rest.dropWhile Char.isDigit = suf then
      some (rest.takeWhile Char.isDigit)
    else none
  | _ => none

/-- Matcher for the anchored regex `^\/conversations\/\d+\/\d+$`. -/
def matchConversations (p : List Char) : Bool :=
  if ("/conversations/".data).isPrefixOf p then
    match (p.drop 15).dropWhile Char.isDigit with
    | '/' :: r2 =>
      !((p.drop 15).takeWhile Char.isDigit).isEmpty
        && !r2.isEmpty && r2.all Char.isDigit
    | _ => false
  else false

/-- `String.prototype.replace` with a plain-string pattern: replace the
first occurrence of `pat` (scanning left to right) by `rep`. -/
def replaceFirst (pat rep : List Char) : List Char → List Char
  | [] => if pat.isEmpty then rep else []
  | c :: cs =>
    if pat.isPrefixOf (c :: cs) then rep ++ (c :: cs).drop pat.length
    else c :: replaceFirst pat rep cs

/-- The path rewrite rule chain of the handler (route.ts lines 32-69),
applied to `transformedPath`.  The two regex-replace branches write out
the replacement template `/api/v1/$1/chat` (resp. `new_conversation`)
with the captured digit group; the `/api/v1/` branch keeps the source
`slice(6)` as `drop 6`. -/
def rewrite (p : List Char) : List Char :=
  match matchNumSuffix ("/chat".data) p with
  | some n => "/api/v1/".data ++ n ++ "/chat".data
  | none =>
  match matchNumSuffix ("/new_conversation".data) p with
  | some n => "/api/v1/".data ++ n ++ "/new_conversation".data
  | none =>
  if matchConversations p then "/api/v1".data ++ p
  else if p = "/me".data then "/api/v1/auth/me".data
  else if ("/me/tasks".data).isPrefixOf p then "/api/v1".data ++ p
  else if ("/tasks".data).isPrefixOf p then "/api/v1".data ++ p
  else if ("/api/v1/".data).isPrefixOf p then "/api/v1".data ++ p.drop 6
  else if ("/api/".data).isPrefixOf p then
    replaceFirst ("/api/".data) ("/api/v1/".data) p
  else if !(("/api/v1/".data).isPrefixOf p) then "/api/v1".data ++ p
  else p

/-- `transformedPath`: `/${path.join("/")}` fed through the rule chain. -/
def transformedPath (segs : List (List Char)) : List Char :=
  rewrite ('/' :: List.intercalate ['/'] segs)

/-- The apostrophe character, used inside the mock-message texts. -/
def apos : Char := Char.ofNat 39

/-- Body text of the mock chat reply when no backend origin is configured
(route.ts lines 119-125). -/
def devChatMsg : List Char :=
  "I".data ++ [apos] ++
  "m in development mode without a backend connection, but I can still help! I have limited functionality, but you can ask me about task management. What would you like to do?".data

/-- Body text of the mock chat reply when the outbound fetch throws
(route.ts lines 176-182). -/
def connChatMsg : List Char :=
  "I".data ++ [apos] ++
  "m having trouble connecting to the backend, but I".data ++ [apos] ++
  "m still here to help! I can assist you with your tasks. What would you like to do?".data

/-- Prefix of the chat error-masking reply text (route.ts line 201). -/
def errPre : List Char :=
  "I encountered an issue processing your request. Error: ".data

/-- Suffix of the chat error-masking reply text (route.ts line 201). -/
def errPost : List Char :=
  ". But I".data ++ [apos] ++
  "m still here to help! What would you like to do?".data

/-- `String.prototype.includes(pat)`: does `pat` occur as a contiguous
substring?  True at some position iff `pat` is a prefix of the suffix
starting there. -/
def includesSub (pat : List Char) : List Char → Bool
  | [] => pat.isEmpty
  | c :: cs => pat.isPrefixOf (c :: cs) || includesSub pat cs

/-- A backend reply body as the handler sees it: either text that is not
valid JSON (so `JSON.parse` throws), or a parsed JSON object with the two
optional string fields the handler reads (`detail`, `message`), paired
with its raw text. -/
inductive BodyVal where
  | raw (text : List Char)
  | jsonObj (detail message : Option (List Char)) (text : List Char)
deriving DecidableEq

/-- `res.text()` of a backend body. -/
def BodyVal.textOf : BodyVal → List Char
  | .raw t => t
  | .jsonObj _ _ t => t

/-- `res.json().catch(() => null)`: `none` models the `null` fallback. -/
def BodyVal.jsonOf : BodyVal → Option BodyVal
  | .raw _ => none
  | b => some b

/-- Outcome of the single outbound `fetch`: it either throws (with an
error message) or yields a reply with a status, a content-type header and
a body. -/
inductive BackendResult where
  | unreachable (errMsg : List Char)
  | reply (status : Nat) (contentType : List Char) (body : BodyVal)
deriving DecidableEq

/-- JavaScript `a || b` on an optional string `a` (absent and empty are
falsy) against a default `b`. -/
def jsOrStr (a : Option (List Char)) (b : List Char) : List Char :=
  match a with
  | some s => if s.isEmpty then b else s
  | none => b

/-- JavaScript `a || b` on two optional strings. -/
def jsOrOpt (a b : Option (List Char)) : Option (List Char) :=
  match a with
  | some s => if s.isEmpty then b else some s
  | none => b

/-- `errorDetail` extraction from a non-ok backend body (route.ts lines
189-194): `errorJson.detail || errorJson.message || errorText`, falling
back to the raw text when `JSON.parse` throws. -/
def extractDetail : BodyVal → List Char
  | .raw t => t
  | .jsonObj d m t => jsOrStr d (jsOrStr m t)

/-- The `Authorization` header value the handler attaches (route.ts lines
76-81): omitted for paths containing `/auth`; otherwise
`session?.accessToken || (isDevelopment() ? "mock-token" : null)` guarded
by a final truthiness check.  `sessTok` is `session?.accessToken`
(`none` when there is no session or no token on it). -/
def authHeaders (tp : List Char) (dev : Bool) (sessTok : Option (List Char)) :
    Option (List Char) :=
  if includesSub ("/auth".data) tp then none
  else
    match jsOrOpt sessTok (if dev then some "mock-token".data else none) with
    | some t => if t.isEmpty then none else some ("Bearer ".data ++ t)
    | none => none

/-- `requestBody` (route.ts lines 24-27): the inbound body text is read
only for methods other than GET and HEAD, else it stays the empty
string. -/
def requestBodyOf (method inboundBody : List Char) : List Char :=
  if method ≠ "GET".data ∧ method ≠ "HEAD".data then inboundBody else []

/-- The `body` option of the outbound fetch (route.ts line 135):
`undefined` for GET and HEAD, else the read request body. -/
def fetchBody (method inboundBody : List Char) : Option (List Char) :=
  if method = "GET".data ∨ method = "HEAD".data then none
  else some (requestBodyOf method inboundBody)

/-- The body of a response the handler returns.  `mockTasks` stands for
the two-item sample-task payload of route.ts lines 89-113/146-170, whose
timestamp fields depend on the wall clock and are not inspected by any
claim. -/
inductive ProxyBody where
  | mockTasks
  | chatShape (conversationId : Nat) (response : List Char)
      (hasToolsExecuted : Bool) (toolResults : List (List Char))
      (messageId : Option Nat)
  | errorObj (error : List Char)
  | proxyError (message error : List Char)
  | passJson (v : Option BodyVal)
  | passText (t : List Char)
deriving DecidableEq

/-- Discriminator: is this body the synthetic chat shape? -/
def ProxyBody.isChatShape : ProxyBody → Bool
  | .chatShape _ _ _ _ _ => true
  | _ => false

/-- A response of the handler: HTTP status plus body. -/
structure ProxyResponse where
  status : Nat
  body : ProxyBody
deriving DecidableEq

/-- The handler (route.ts lines 20-225) as a pure function from the
environment, the inbound path segments and the fetch-outcome oracle
`backend` (consulted only when an origin is configured) to the response.
The construction of the outbound request, which does not influence the
branch taken, is modelled separately by `authHeaders`, `requestBodyOf`
and `fetchBody`.  The single `throw` on line 185 is caught by the
enclosing try/catch of lines 21/219-224 and surfaces as the 500
`proxyError` response. -/
def handler (env : Env) (pathSegs : List (List Char))
    (backend : BackendResult) : ProxyResponse :=
  let tp := transformedPath pathSegs
  let dev := isDevelopment env
  match baseUrl env with
  | none =>
    if dev && includesSub ("/tasks".data) tp then ⟨200, .mockTasks⟩
    else if dev && includesSub ("/chat".data) tp then
      ⟨200, .chatShape 1 devChatMsg false [] none⟩
    else ⟨503, .errorObj ("API backend not configured".data)⟩
  | some _ =>
    match backend with
    | .unreachable em =>
      if dev && includesSub ("/tasks".data) tp then ⟨200, .mockTasks⟩
      else if includesSub ("/chat".data) tp then
        ⟨200, .chatShape 1 connChatMsg false [] none⟩
      else
        ⟨500, .proxyError ("Proxy error occurred".data)
          ("Failed to connect to backend: ".data ++ em)⟩
    | .reply st ct body =>
      if ¬ (200 ≤ st ∧ st ≤ 299) then
        if includesSub ("/chat".data) tp then
          ⟨200, .chatShape 1 (errPre ++ extractDetail body ++ errPost)
            false [] none⟩
        else ⟨st, .errorObj (extractDetail body)⟩
      else if includesSub ("application/json".data) ct then
        ⟨st, .passJson body.jsonOf⟩
      else ⟨st, .passText body.textOf⟩


/-- Number of positions at which `pat` occurs as a contiguous substring
(one count per starting position, the position at the very end
included). -/
def countOcc (pat : List Char) : List Char → Nat
  | [] => if pat.isEmpty then 1 else 0
  | c :: cs => (if pat.isPrefixOf (c :: cs) then 1 else 0) + countOcc pat cs

/-- Environment with both origin variables and NODE_ENV unset: no backend
origin is configured and the mode is non-production. -/
def envDevNoApi : Env := ⟨none, none, none⟩

/-- C1: the inbound path whose segments join to `/api/v1/tasks` is NOT
rewritten to itself: the `/api/v1/` rule re-adds the prefix after
`slice(6)`, which strips only the six characters `/api/v`, so the result
is `/api/v11/tasks`.  This contradicts the stated idempotence and the
source comment announcing a strip-and-re-add that avoids changing the
path. -/
theorem c1_slice_bug :
    transformedPath ["api".data, "v1".data, "tasks".data] =
      "/api/v11/tasks".data ∧
    "/api/v11/tasks".data ≠ "/api/v1/tasks".data := by
  decide

/-- C2: an inbound path beginning with `/api/v1/auth` is NOT left
unchanged by the rewrite: `/api/v1/auth/login` becomes
`/api/v11/auth/login` under the same `slice(6)` off-by-one. -/
theorem c2_auth_slice_bug :
    transformedPath ["api".data, "v1".data, "auth".data, "login".data] =
      "/api/v11/auth/login".data ∧
    "/api/v11/auth/login".data ≠ "/api/v1/auth/login".data := by
  decide

/-- C8: a GET or HEAD request forwards no body (the fetch `body` option
is `undefined`), whatever the inbound body was; any other method forwards
the inbound body text. -/
theorem c8_body_forwarding (method inbound : List Char) :
    (method = "GET".data ∨ method = "HEAD".data →
      fetchBody method inbound = none) ∧
    (method ≠ "GET".data ∧ method ≠ "HEAD".data →
      fetchBody method inbound = some inbound) := by
  constructor
  · intro h
    unfold fetchBody
    rw [if_pos h]
  · intro h
    unfold fetchBody requestBodyOf
    rw [if_neg (by tauto), if_pos h]

/-- Witness for C8 at the concrete methods GET and POST. -/
theorem c8_body_forwarding_witness :
    fetchBody ("GET".data) ("x".data) = none ∧
    fetchBody ("POST".data) ("x".data) = some ("x".data) :=
  ⟨(c8_body_forwarding ("GET".data) ("x".data)).1 (Or.inl rfl),
   (c8_body_forwarding ("POST".data) ("x".data)).2 (by decide)⟩

/-- C9: the outbound `Authorization` header is omitted whenever the
rewritten path contains `/auth`; otherwise it is `Bearer <token>` when
the session carries a non-empty token; with no (or an empty) session
token it is omitted in production mode, while in non-production mode the
fixed placeholder `mock-token` is substituted. -/
theorem c9_auth_header (tp : List Char) (dev : Bool) (tok : Option (List Char)) :
    (includesSub ("/auth".data) tp = true → authHeaders tp dev tok = none) ∧
    (includesSub ("/auth".data) tp = false → ∀ t, tok = some t → t ≠ [] →
      authHeaders tp dev tok = some ("Bearer ".data ++ t)) ∧
    (includesSub ("/auth".data) tp = false → dev = false →
      tok = none ∨ tok = some [] → authHeaders tp dev tok = none) ∧
    (includesSub ("/auth".data) tp = false → dev = true →
      tok = none ∨ tok = some [] →
      authHeaders tp dev tok = some ("Bearer mock-token".data)) := by
  refine ⟨fun h => ?_, fun h t ht hne => ?_, fun h hdev htok => ?_,
    fun h hdev htok => ?_⟩
  · simp [authHeaders, h]
  · subst ht
    cases t with
    | nil => exact absurd rfl hne
    | cons a as => simp [authHeaders, h, jsOrOpt]
  · subst hdev
    rcases htok with h0 | h0 <;> subst h0 <;> simp [authHeaders, h, jsOrOpt]
  · subst hdev
    rcases htok with h0 | h0 <;> subst h0 <;>
      simp [authHeaders, h, jsOrOpt]

/-- Witness for C9: an auth path gets no header; a tasks path with a
session token gets the bearer header. -/
theorem c9_auth_header_witness :
    authHeaders ("/api/v1/auth/login".data) true (some "tok".data) = none ∧
    authHeaders ("/api/v1/tasks".data) false (some "tok".data) =
      some ("Bearer tok".data) := by
  refine ⟨(c9_auth_header ("/api/v1/auth/login".data) true (some "tok".data)).1
    (by decide), ?_⟩
  have h := (c9_auth_header ("/api/v1/tasks".data) false
    (some "tok".data)).2.1 (by decide) ("tok".data) rfl (by decide)
  simpa using h

/-- C6 counterexample: with no origin configured, non-production mode,
and the inbound segments `tasks/chat`, the rewritten path contains
`/chat`, yet the handler returns the mock-tasks payload, not the
synthetic chat shape: the tasks branch of the no-origin fallback is
checked first. -/
theorem c6_counterexample :
    baseUrl envDevNoApi = none ∧ isDevelopment envDevNoApi = true ∧
    includesSub ("/chat".data)
      (transformedPath ["tasks".data, "chat".data]) = true ∧
    handler envDevNoApi ["tasks".data, "chat".data] (.unreachable []) =
      ⟨200, .mockTasks⟩ ∧
    (handler envDevNoApi ["tasks".data, "chat".data]
      (.unreachable [])).body.isChatShape = false := by
  decide

/-- C6 (amended): whenever the backend cannot be reached — no origin
configured in non-production mode, or the outbound fetch throws — and
the rewritten path contains `/chat` but not `/tasks`, the handler
returns HTTP 200 with exactly the synthetic chat shape
(conversation id 1, tools-executed false, empty tool results, null
message id) and a non-empty response text (the connectivity-trouble
message in the fetch-failure case). -/
theorem c6_unreachable_chat_mock (env : Env) (segs : List (List Char))
    (hchat : includesSub ("/chat".data) (transformedPath segs) = true)
    (htask : includesSub ("/tasks".data) (transformedPath segs) = false) :
    (∀ b : BackendResult, baseUrl env = none → isDevelopment env = true →
      handler env segs b = ⟨200, .chatShape 1 devChatMsg false [] none⟩ ∧
      devChatMsg ≠ []) ∧
    (∀ u em, baseUrl env = some u →
      handler env segs (.unreachable em) =
        ⟨200, .chatShape 1 connChatMsg false [] none⟩ ∧
      connChatMsg ≠ []) := by
  constructor
  · intro b hb hdev
    refine ⟨?_, by decide⟩
    simp [handler, hb, hdev, hchat, htask]
  · intro u em hb
    refine ⟨?_, by decide⟩
    simp [handler, hb, hchat, htask]

/-- Witness for C6 (amended): concrete instantiation with segments
`3/chat` in the no-origin non-production case. -/
theorem c6_unreachable_chat_mock_witness :
    handler envDevNoApi ["3".data, "chat".data] (.unreachable []) =
      ⟨200, .chatShape 1 devChatMsg false [] none⟩ := by
  have h := (c6_unreachable_chat_mock envDevNoApi ["3".data, "chat".data]
    (by decide) (by decide)).1 (.unreachable []) rfl rfl
  exact h.1

/-- C7: when no backend origin is configured the handler does not throw:
paths whose rewrite contains neither `/tasks` nor `/chat` get the
structured 503 error, and any 200 response in this situation implies
non-production mode and a tasks- or chat-targeting rewritten path. -/
theorem c7_no_origin (env : Env) (segs : List (List Char))
    (b : BackendResult) (h : baseUrl env = none) :
    (includesSub ("/tasks".data) (transformedPath segs) = false →
      includesSub ("/chat".data) (transformedPath segs) = false →
      handler env segs b = ⟨503, .errorObj ("API backend not configured".data)⟩) ∧
    ((handler env segs b).status = 200 →
      isDevelopment env = true ∧
      (includesSub ("/tasks".data) (transformedPath segs) = true ∨
       includesSub ("/chat".data) (transformedPath segs) = true)) := by
  constructor
  · intro ht hc
    simp [handler, h, ht, hc]
  · intro h200
    by_cases hd : isDevelopment env = true
    · refine ⟨hd, ?_⟩
      by_cases ht : includesSub ("/tasks".data) (transformedPath segs) = true
      · exact Or.inl ht
      · by_cases hc : includesSub ("/chat".data) (transformedPath segs) = true
        · exact Or.inr hc
        · simp [handler, h, hd, ht, hc] at h200
    · simp [handler, h, hd] at h200

/-- Witness for C7: concretely, with nothing configured a `health` path
yields the 503 error payload. -/
theorem c7_no_origin_witness :
    handler envDevNoApi ["health".data] (.unreachable []) =
      ⟨503, .errorObj ("API backend not configured".data)⟩ :=
  (c7_no_origin envDevNoApi ["health".data] (.unreachable []) rfl).1
    (by decide) (by decide)

/-- C5: a reachable backend replying non-2xx on a path whose rewrite does
not contain `/chat` has its status preserved, with an `error` body
holding the extracted detail: the raw text when the body is not JSON,
the (non-empty) `detail` field of a JSON body, else its (non-empty)
`message` field. -/
theorem c5_non_chat_error_passthrough (env : Env) (segs : List (List Char))
    (u : List Char) (st : Nat) (ct : List Char) (body : BodyVal)
    (hbase : baseUrl env = some u)
    (hok : ¬ (200 ≤ st ∧ st ≤ 299))
    (hchat : includesSub ("/chat".data) (transformedPath segs) = false) :
    handler env segs (.reply st ct body) = ⟨st, .errorObj (extractDetail body)⟩ ∧
    (∀ t, extractDetail (.raw t) = t) ∧
    (∀ d m t, d ≠ [] → extractDetail (.jsonObj (some d) m t) = d) ∧
    (∀ m t, m ≠ [] → extractDetail (.jsonObj none (some m) t) = m) := by
  refine ⟨?_, fun t => rfl, fun d m t hd => ?_, fun m t hm => ?_⟩
  · simp [handler, hbase, hok, hchat]
  · cases d with
    | nil => exact absurd rfl hd
    | cons a as => simp [extractDetail, jsOrStr]
  · cases m with
    | nil => exact absurd rfl hm
    | cons a as => simp [extractDetail, jsOrStr]

/-- Witness for C5: a 404 with body `{"detail":"not found"}` on the
rewritten tasks path comes back as a 404 with `error` = `not found`. -/
theorem c5_non_chat_error_passthrough_witness :
    handler ⟨some "http://b".data, none, none⟩ ["tasks".data]
      (.reply 404 ("application/json".data)
        (.jsonObj (some "not found".data) none [])) =
      ⟨404, .errorObj ("not found".data)⟩ := by
  have h := (c5_non_chat_error_passthrough ⟨some "http://b".data, none, none⟩
    ["tasks".data] ("http://b".data) 404 ("application/json".data)
    (.jsonObj (some "not found".data) none []) rfl (by omega) (by decide)).1
  rw [h]
  have h2 := (c5_non_chat_error_passthrough ⟨some "http://b".data, none, none⟩
    ["tasks".data] ("http://b".data) 404 ("application/json".data)
    (.jsonObj (some "not found".data) none []) rfl (by omega) (by decide)).2.2.1
    ("not found".data) none [] (by decide)
  rw [h2]

/-- C4: a reachable backend replying non-2xx with a JSON body whose
`detail` field is `x`, on a path whose rewrite contains `/chat`, is
masked to an HTTP 200 synthetic chat-shape response whose text embeds
the extracted detail, and `x` occurs as a substring of that text. -/
theorem c4_chat_error_masking (env : Env) (segs : List (List Char))
    (u : List Char) (st : Nat) (ct : List Char) (x : List Char)
    (m : Option (List Char)) (t : List Char)
    (hbase : baseUrl env = some u)
    (hok : ¬ (200 ≤ st ∧ st ≤ 299))
    (hchat : includesSub ("/chat".data) (transformedPath segs) = true) :
    handler env segs (.reply st ct (.jsonObj (some x) m t)) =
      ⟨200, .chatShape 1
        (errPre ++ extractDetail (.jsonObj (some x) m t) ++ errPost)
        false [] none⟩ ∧
    x <:+: (errPre ++ extractDetail (.jsonObj (some x) m t) ++ errPost) := by
  constructor
  · simp [handler, hbase, hok, hchat]
  · cases x with
    | nil => exact ⟨[], errPre ++ extractDetail (.jsonObj (some []) m t)
        ++ errPost, by simp⟩
    | cons a as =>
      refine ⟨errPre, errPost, ?_⟩
      simp [extractDetail, jsOrStr]

/-- Witness for C4: a 500 with body `{"detail":"boom"}` on the rewritten
chat path `/api/v1/3/chat` is masked to a 200 chat shape embedding
`boom`. -/
theorem c4_chat_error_masking_witness :
    handler ⟨some "http://b".data, none, none⟩ ["3".data, "chat".data]
      (.reply 500 ("application/json".data)
        (.jsonObj (some "boom".data) none [])) =
      ⟨200, .chatShape 1
        (errPre ++ extractDetail (.jsonObj (some "boom".data) none []) ++ errPost)
        false [] none⟩ ∧
    "boom".data <:+:
      (errPre ++ extractDetail (.jsonObj (some "boom".data) none []) ++ errPost) :=
  c4_chat_error_masking ⟨some "http://b".data, none, none⟩
    ["3".data, "chat".data] ("http://b".data) 500 ("application/json".data)
    ("boom".data) none [] rfl (by omega) (by decide)

lemma isPrefixOf_exists (pat s : List Char) (h : pat.isPrefixOf s = true) :
    ∃ t, s = pat ++ t := by
  induction pat generalizing s with
  | nil => exact ⟨s, rfl⟩
  | cons a as ih =>
    cases s with
    | nil => simp [List.isPrefixOf] at h
    | cons b bs =>
      simp only [List.isPrefixOf, Bool.and_eq_true, beq_iff_eq] at h
      obtain ⟨rfl, h2⟩ := h
      obtain ⟨t, rfl⟩ := ih bs h2
      exact ⟨t, rfl⟩

lemma replaceFirst_of_prefixOf (pat rep s : List Char)
    (h : pat.isPrefixOf s = true) :
    replaceFirst pat rep s = rep ++ s.drop pat.length := by
  cases s with
  | nil =>
    obtain ⟨t, ht⟩ := isPrefixOf_exists pat [] h
    have : pat = [] := by
      cases pat with
      | nil => rfl
      | cons a as => simp at ht
    subst this
    simp [replaceFirst]
  | cons c cs =>
    simp [replaceFirst, h]

lemma rewrite_apiV1_prefixOf (p : List Char) :
    ("/api/v1".data) <+: rewrite p := by
  unfold rewrite
  split
  · next n _ =>
    exact ⟨'/' :: (n ++ "/chat".data), by rw [List.append_assoc]; rfl⟩
  · split
    · next n _ =>
      exact ⟨'/' :: (n ++ "/new_conversation".data),
        by rw [List.append_assoc]; rfl⟩
    · split
      · exact ⟨p, rfl⟩
      · split
        · exact ⟨"/auth/me".data, by rfl⟩
        · split
          · exact ⟨p, rfl⟩
          · split
            · exact ⟨p, rfl⟩
            · split
              · exact ⟨p.drop 6, rfl⟩
              · split
                · next h8 =>
                  rw [replaceFirst_of_prefixOf _ _ _ h8]
                  exact ⟨'/' :: p.drop 5, by rfl⟩
                · split
                  · exact ⟨p, rfl⟩
                  · next h9 =>
                    have h10 : ∃ t, "/api/v1/".data ++ t = p := by
                      simpa using h9
                    obtain ⟨t, rfl⟩ := h10
                    exact ⟨'/' :: t, by rfl⟩

/-- C10: the rewrite invariant — for every inbound segment list, the
rewritten path begins with `/api/v1`: every rule branch either prepends
`/api/v1`, substitutes `/api/` by `/api/v1/`, re-adds the prefix after a
drop, or keeps a path that already carried it. -/
theorem c10_rewrite_always_prefixed (segs : List (List Char)) :
    ("/api/v1".data) <+: transformedPath segs :=
  rewrite_apiV1_prefixOf ('/' :: List.intercalate ['/'] segs)

lemma takeWhile_digits_append (n s : List Char)
    (h : ∀ c ∈ n, c.isDigit = true) :
    (n ++ '/' :: s).takeWhile Char.isDigit = n := by
  induction n with
  | nil => simp [List.takeWhile]
  | cons a as ih =>
    have ha := h a (List.mem_cons_self a as)
    simp only [List.cons_append, List.takeWhile, ha, List.append_eq]
    rw [ih fun c hc => h c (List.mem_cons_of_mem a hc)]

lemma dropWhile_digits_append (n s : List Char)
    (h : ∀ c ∈ n, c.isDigit = true) :
    (n ++ '/' :: s).dropWhile Char.isDigit = '/' :: s := by
  induction n with
  | nil => simp [List.dropWhile]
  | cons a as ih =>
    have ha := h a (List.mem_cons_self a as)
    simp only [List.cons_append, List.dropWhile, ha, List.append_eq]
    exact ih fun c hc => h c (List.mem_cons_of_mem a hc)

lemma matchNumChat_digits (n : List Char) (h1 : n ≠ [])
    (h2 : ∀ c ∈ n, c.isDigit = true) :
    matchNumSuffix ("/chat".data) ('/' :: (n ++ "/chat".data)) = some n := by
  have ht : (n ++ "/chat".data).takeWhile Char.isDigit = n :=
    takeWhile_digits_append n ("chat".data) h2
  have hd : (n ++ "/chat".data).dropWhile Char.isDigit = "/chat".data :=
    dropWhile_digits_append n ("chat".data) h2
  simp [matchNumSuffix, ht, hd, h1]

lemma intercalate_pair (a b : List Char) :
    List.intercalate ['/'] [a, b] = a ++ '/' :: b := by
  simp [List.intercalate]

lemma countOcc_digits_chat (n : List Char) (h : ∀ c ∈ n, c.isDigit = true) :
    countOcc ("/api/v1".data) (n ++ "/chat".data) = 0 := by
  induction n with
  | nil => decide
  | cons a as ih =>
    have ha := h a (List.mem_cons_self a as)
    have hne : ('/' == a) = false := by
      refine beq_eq_false_iff_ne.mpr fun heq => ?_
      rw [← heq] at ha
      exact absurd ha (by decide)
    have := ih fun c hc => h c (List.mem_cons_of_mem a hc)
    simp [countOcc, List.isPrefixOf, hne, this]

lemma apiTail_not_prefixOf (n : List Char) (h : ∀ c ∈ n, c.isDigit = true) :
    (['a', 'p', 'i', '/', 'v', '1'] : List Char).isPrefixOf
      (n ++ "/chat".data) = false := by
  cases n with
  | nil => decide
  | cons a as =>
    have ha := h a (List.mem_cons_self a as)
    have hne : ('a' == a) = false := by
      refine beq_eq_false_iff_ne.mpr fun heq => ?_
      rw [← heq] at ha
      exact absurd ha (by decide)
    simp [List.isPrefixOf, hne]

lemma countOcc_apiV1_chat (n : List Char) (h : ∀ c ∈ n, c.isDigit = true) :
    countOcc ("/api/v1".data) ("/api/v1/".data ++ (n ++ "/chat".data)) = 1 := by
  show countOcc ("/api/v1".data)
    ('/' :: 'a' :: 'p' :: 'i' :: '/' :: 'v' :: '1' :: '/' ::
      (n ++ "/chat".data)) = 1
  simp [countOcc, List.isPrefixOf, apiTail_not_prefixOf n h,
    countOcc_digits_chat n h]

/-- C3: every inbound path `/{n}/chat` with `n` a non-empty digit string
rewrites to `/api/v1/{n}/chat`, and the substring `/api/v1` occurs in the
result at exactly one position. -/
theorem c3_digit_chat_rewrite (n : List Char) (h1 : n ≠ [])
    (h2 : ∀ c ∈ n, c.isDigit = true) :
    transformedPath [n, "chat".data] = "/api/v1/".data ++ n ++ "/chat".data ∧
    countOcc ("/api/v1".data) (transformedPath [n, "chat".data]) = 1 := by
  have hp : transformedPath [n, "chat".data] =
      "/api/v1/".data ++ n ++ "/chat".data := by
    unfold transformedPath
    rw [intercalate_pair]
    show rewrite ('/' :: (n ++ "/chat".data)) = _
    unfold rewrite
    rw [matchNumChat_digits n h1 h2]
  refine ⟨hp, ?_⟩
  rw [hp, List.append_assoc]
  exact countOcc_apiV1_chat n h2

/-- Witness for C3 at the concrete digit string `3`. -/
theorem c3_digit_chat_rewrite_witness :
    transformedPath ["3".data, "chat".data] =
      "/api/v1/".data ++ "3".data ++ "/chat".data ∧
    countOcc ("/api/v1".data) (transformedPath ["3".data, "chat".data]) = 1 :=
  c3_digit_chat_rewrite ("3".data) (by decide) (by decide)

end Proxy
